import Mathlib

/-!
Verification of the serde_discord schema codec.

Shallow embedding of the serde_discord library (a schema codec for the
Discord command/interaction protocol) and proofs of the specification
claims about it.  Machine integers are modelled as `Int`/`Nat` with the
relevant width bounds carried as subtypes; IEEE-754 doubles are carried
symbolically (no claim inspects a floating-point numeric value); JSON wire
values are modelled by explicit inductive types; fallible Rust functions
returning `Result` are modelled with `Except`, and a reachable `unwrap`
panic with a dedicated `BuildOutcome.panicked` outcome.
-/

/-- A 32-bit signed machine integer, as carried by Rust `i32`. -/
abbrev Int32 := {n : Int // -(2 ^ 31) ≤ n ∧ n < 2 ^ 31}

/-- A 64-bit signed machine integer, as carried by Rust `i64`. -/
abbrev Int64 := {n : Int // -(2 ^ 63) ≤ n ∧ n < 2 ^ 63}

/-- A symbolic IEEE-754 double: either a literal that entered the system as
an `f64` (identified by its bit pattern) or the result of the `u64 as f64`
lossy cast in `MultiTypeValueVisitor::visit_u64`.  No code under
verification computes with doubles, so the rounding itself is left
uninterpreted. -/
inductive F64 where
  | lit (bits : Nat)
  | ofU64 (n : Nat)
deriving DecidableEq

/-- Inbound JSON values as seen by a serde deserializer reading a
`serde_json::Value`: numbers are split exactly as `serde_json` splits them
(`PosInt` backed by `u64`, `NegInt` backed by `i64`, `Float` backed by
`f64`), and objects are field lists with unique keys visited in order. -/
inductive Json where
  | null
  | bool (b : Bool)
  | numU (n : Nat)
  | numI (n : Int64)
  | numF (f : F64)
  | str (s : String)
  | arr (elems : List Json)
  | obj (fields : List (String × Json))

/-- The JSON type name used by serde error messages for a value. -/
def Json.typeName : Json → String
  | .null => "null"
  | .bool _ => "a boolean"
  | .numU _ => "an unsigned integer"
  | .numI _ => "a signed integer"
  | .numF _ => "a floating point number"
  | .str _ => "a string"
  | .arr _ => "an array"
  | .obj _ => "an object"

/-- Outbound JSON values produced by the serializers. -/
inductive JVal where
  | null
  | str (s : String)
  | int (n : Int)
  | num (f : F64)
  | bool (b : Bool)
  | arr (elems : List JVal)
  | obj (fields : List (String × JVal))

/-- The top-level keys of an emitted JSON object (empty for non-objects). -/
def JVal.objKeys : JVal → List String
  | .obj fields => fields.map Prod.fst
  | _ => []

/-- `types/command.rs`: the command kind enumeration (`Serialize_repr` /
`Deserialize_repr` over `u8`). -/
inductive CommandKind where
  | ChatInput
  | User
  | Message
  | PrimaryEntryPoint
deriving DecidableEq

/-- Wire discriminant of a `CommandKind` (its `repr(u8)` value). -/
def CommandKind.toNat : CommandKind → Nat
  | .ChatInput => 1
  | .User => 2
  | .Message => 3
  | .PrimaryEntryPoint => 4

/-- `types/command_option.rs`: the 11 command option kinds. -/
inductive CommandOptionKind where
  | SubCommand
  | SubCommandGroup
  | String
  | Integer
  | Boolean
  | User
  | Channel
  | Role
  | Mentionable
  | Number
  | Attachment
deriving DecidableEq

/-- Wire discriminant of a `CommandOptionKind` (its `repr(u8)` value). -/
def CommandOptionKind.toNat : CommandOptionKind → Nat
  | .SubCommand => 1
  | .SubCommandGroup => 2
  | .String => 3
  | .Integer => 4
  | .Boolean => 5
  | .User => 6
  | .Channel => 7
  | .Role => 8
  | .Mentionable => 9
  | .Number => 10
  | .Attachment => 11

/-- Decode of a `CommandOptionKind` discriminant (`Deserialize_repr`). -/
def CommandOptionKind.ofNat? : Nat → Option CommandOptionKind
  | 1 => some .SubCommand
  | 2 => some .SubCommandGroup
  | 3 => some .String
  | 4 => some .Integer
  | 5 => some .Boolean
  | 6 => some .User
  | 7 => some .Channel
  | 8 => some .Role
  | 9 => some .Mentionable
  | 10 => some .Number
  | 11 => some .Attachment
  | _ => none

/-- `types/multi_type_value.rs`: `MultiTypeValue`, the polymorphic scalar
carried by decoded option values (`String` / `Integer(i64)` / `Double(f64)`
/ `Boolean`). -/
inductive MultiTypeValue where
  | String (s : String)
  | Integer (n : Int64)
  | Double (f : F64)
  | Boolean (b : Bool)

/-- Structured decode errors, standing for the error values a serde
deserializer produces (missing field, invalid type, invalid value,
duplicate field). -/
inductive DecErr where
  | missingField (name : String)
  | invalidType (found : String) (expected : String)
  | invalidValue (desc : String)
  | duplicateField (name : String)
deriving DecidableEq

/-- `MultiTypeValueVisitor` (`types/multi_type_value.rs` lines 27-75)
driven by `deserialize_any` over a `serde_json` value: strings, booleans,
signed integers and doubles map to their own variants; an unsigned integer
goes through `visit_u64`, which casts to `Integer` when the value fits in
`i64` and otherwise falls back to the lossy `u64 as f64` `Double`; any
other shape is a type mismatch. -/
def multiTypeValueDecode : Json → Except DecErr MultiTypeValue
  | .str s => .ok (.String s)
  | .bool b => .ok (.Boolean b)
  | .numU n =>
      if h : n ≤ 2 ^ 63 - 1 then
        .ok (.Integer ⟨(n : Int), by omega⟩)
      else
        .ok (.Double (.ofU64 n))
  | .numI n => .ok (.Integer n)
  | .numF f => .ok (.Double f)
  | j => .error (.invalidType j.typeName "a string, integer, double, or boolean value")

example : multiTypeValueDecode (.numU (2 ^ 63 - 1))
    = .ok (.Integer ⟨(2 : Int) ^ 63 - 1, by norm_num⟩) := by
  rfl

example : multiTypeValueDecode (.numU (2 ^ 63)) = .ok (.Double (.ofU64 (2 ^ 63))) := by
  rfl

/-- `register/command/choice.rs`: `ChoiceValue`, the scalar allowed for
choice values and min/max constraints (`Int(i32)` / `Float(f64)` /
`String`). -/
inductive ChoiceValue where
  | Int (n : Int32)
  | Float (f : F64)
  | String (s : String)

/-- `register/command/choice.rs`: a `Choice` (name plus `ChoiceValue`). -/
structure Choice where
  name : String
  value : ChoiceValue

/-- The byte length of a string, as computed by Rust `String::len`. -/
def rustStrLen (s : String) : Nat := s.utf8ByteSize

/-- `Choice::serialize` (`register/command/choice.rs` lines 21-41): emits
`name` and `value`, but fails when a string value is longer than 100
bytes. -/
def serializeChoice (c : Choice) : Except String JVal :=
  match c.value with
  | .Int v => .ok (.obj [("name", .str c.name), ("value", .int v.val)])
  | .Float v => .ok (.obj [("name", .str c.name), ("value", .num v)])
  | .String v =>
      if rustStrLen v > 100 then
        .error "Value cannot be longer than 100 chars"
      else
        .ok (.obj [("name", .str c.name), ("value", .str v)])

/-- `CommandOptionChoiceBuilder` (`register/command/choice.rs`). -/
structure CommandOptionChoiceBuilder where
  name : Option String
  value : Option ChoiceValue

/-- `CommandOptionChoiceBuilder::new`. -/
def CommandOptionChoiceBuilder.new : CommandOptionChoiceBuilder := ⟨none, none⟩

/-- `CommandOptionChoiceBuilder::build` (lines 74-95): requires `name` and
`value` to be set (the missing-`value` branch reuses the `name` error
message, exactly as in the source) and rejects a string value longer than
100 bytes. -/
def CommandOptionChoiceBuilder.build (b : CommandOptionChoiceBuilder) : Except String Choice :=
  match b.name with
  | none => .error "`name` must be set"
  | some nm =>
    match b.value with
    | some v =>
        match v with
        | .String s =>
            if rustStrLen s > 100 then
              .error "`value` cannot be longer than 100 chars"
            else
              .ok ⟨nm, .String s⟩
        | _ => .ok ⟨nm, v⟩
    | none => .error "`name` must be set"

/-- `register/command/option.rs`: `CommandOption`, the validated command
option schema node (recursive through `options`). -/
inductive CommandOption where
  | mk (kind : CommandOptionKind) (name : String) (description : String)
      (required : Option Bool) (choices : Option (List Choice))
      (options : Option (List CommandOption))
      (min_value : Option ChoiceValue) (max_value : Option ChoiceValue)
      (min_length : Option ChoiceValue) (max_length : Option ChoiceValue)
      (autocomplete : Option Bool)

def CommandOption.kind : CommandOption → CommandOptionKind
  | .mk k _ _ _ _ _ _ _ _ _ _ => k

def CommandOption.name : CommandOption → String
  | .mk _ n _ _ _ _ _ _ _ _ _ => n

def CommandOption.description : CommandOption → String
  | .mk _ _ d _ _ _ _ _ _ _ _ => d

def CommandOption.min_length : CommandOption → Option ChoiceValue
  | .mk _ _ _ _ _ _ _ _ ml _ _ => ml

def CommandOption.max_length : CommandOption → Option ChoiceValue
  | .mk _ _ _ _ _ _ _ _ _ xl _ => xl

/-- `CommandOptionBuilder` (`register/command/option.rs`): accumulates
every field as an `Option`. -/
structure CommandOptionBuilder where
  kind : Option CommandOptionKind
  name : Option String
  description : Option String
  required : Option Bool
  choices : Option (List Choice)
  options : Option (List CommandOption)
  min_value : Option ChoiceValue
  max_value : Option ChoiceValue
  min_length : Option ChoiceValue
  max_length : Option ChoiceValue
  autocomplete : Option Bool

/-- `CommandOptionBuilder::new`. -/
def CommandOptionBuilder.new : CommandOptionBuilder :=
  ⟨none, none, none, none, none, none, none, none, none, none, none⟩

/-- `option.rs` lines 226-231: the `min_value` guard (a `String` value is
rejected, everything else passes). -/
def checkMinValue : Option ChoiceValue → Option String
  | some (.String _) => some "`min_value` cannot be a string"
  | _ => none

/-- `option.rs` lines 232-237: the `max_value` guard. -/
def checkMaxValue : Option ChoiceValue → Option String
  | some (.String _) => some "`max_value` cannot be a string"
  | _ => none

/-- `option.rs` lines 238-249: the `min_length` guard — must be an `Int`,
and then within `[0, 6000]` (type and range checked in one block). -/
def checkOptionMinLength : Option ChoiceValue → Option String
  | some (.Int v) =>
      if v.val < 0 then some "`min_length` must be at least 0"
      else if v.val > 6000 then some "`min_length` cannot be greater than 6000"
      else none
  | some _ => some "`min_length` must be an integer"
  | none => none

/-- `option.rs` lines 250-261: the `max_length` guard — must be an `Int`,
and then within `[1, 6000]`. -/
def checkOptionMaxLength : Option ChoiceValue → Option String
  | some (.Int v) =>
      if v.val < 1 then some "`max_length` must be at least 1"
      else if v.val > 6000 then some "`max_length` cannot be greater than 6000"
      else none
  | some _ => some "`max_length` must be an integer"
  | none => none

/-- `CommandOptionBuilder::build` (`register/command/option.rs` lines
216-276): the early-return guards run in source order — presence of
`kind`, `name`, `description`, then the `min_value` guard, the `max_value`
guard, the `min_length` guard (type then range) and the `max_length` guard
(type then range); the first failing guard aborts the build with its
error, otherwise the immutable `CommandOption` is produced from the
builder fields. -/
def CommandOptionBuilder.build (b : CommandOptionBuilder) : Except String CommandOption :=
  match b.kind with
  | none => .error "`kind` must be set"
  | some kind =>
    match b.name with
    | none => .error "`name` must be set"
    | some name =>
      match b.description with
      | none => .error "`description` must be set"
      | some description =>
        match checkMinValue b.min_value with
        | some e => .error e
        | none =>
          match checkMaxValue b.max_value with
          | some e => .error e
          | none =>
            match checkOptionMinLength b.min_length with
            | some e => .error e
            | none =>
              match checkOptionMaxLength b.max_length with
              | some e => .error e
              | none =>
                  .ok (.mk kind name description b.required b.choices b.options
                    b.min_value b.max_value b.min_length b.max_length b.autocomplete)

/-- `register/command/mod.rs`: `Command`. -/
structure Command where
  name : String
  kind : CommandKind
  description : String
  options : Option (List CommandOption)

/-- `CommandBuilder` (`register/command/mod.rs`). -/
structure CommandBuilder where
  name : Option String
  kind : Option CommandKind
  description : Option String
  options : Option (List CommandOption)

/-- `CommandBuilder::new`. -/
def CommandBuilder.new : CommandBuilder := ⟨none, none, none, none⟩

/-- `CommandBuilder::build` (`register/command/mod.rs` lines 148-162):
`name` and `kind` are required; `description` defaults to the empty string
(`unwrap_or_default`). -/
def CommandBuilder.build (b : CommandBuilder) : Except String Command :=
  match b.name with
  | none => .error "`name` must be set"
  | some name =>
    match b.kind with
    | none => .error "`kind` must be set"
    | some kind => .ok ⟨name, kind, b.description.getD "", b.options⟩

/-- `response/data/message/component/button.rs`: `ButtonStyle`
(`repr(u8)` 1..6). -/
inductive ButtonStyle where
  | Primary
  | Secondary
  | Success
  | Danger
  | Link
  | Premium
deriving DecidableEq

/-- Wire value of a `ButtonStyle`. -/
def ButtonStyle.toNat : ButtonStyle → Nat
  | .Primary => 1
  | .Secondary => 2
  | .Success => 3
  | .Danger => 4
  | .Link => 5
  | .Premium => 6

/-- `button.rs`: `ButtonComponent`. -/
structure ButtonComponent where
  style : ButtonStyle
  label : Option String
  custom_id : Option String
  url : Option String
  disabled : Option Bool
deriving DecidableEq

/-- `ButtonComponent::serialize` (`button.rs` lines 27-53), reproduced
exactly as written: the `type` field is emitted with the literal `5`, and
a present `disabled` flag is emitted under the field name `"url"` (the
absent branch skips the field under the name `"disabled"`). -/
def serializeButton (b : ButtonComponent) : JVal :=
  .obj ([("type", .int 5), ("style", .int b.style.toNat)]
    ++ (match b.label with | some l => [("label", .str l)] | none => [])
    ++ (match b.custom_id with | some c => [("custom_id", .str c)] | none => [])
    ++ (match b.url with | some u => [("url", .str u)] | none => [])
    ++ (match b.disabled with | some d => [("url", .bool d)] | none => []))

/-- `select_menu.rs`: `SelectMenuOption`. -/
structure SelectMenuOption where
  label : String
  value : String
  description : Option String
  default : Option String
deriving DecidableEq

/-- Derived `Serialize` for `SelectMenuOption` (`skip_serializing_if` on
`description` and `default`). -/
def serializeSelectMenuOption (o : SelectMenuOption) : JVal :=
  .obj ([("label", .str o.label), ("value", .str o.value)]
    ++ (match o.description with | some d => [("description", .str d)] | none => [])
    ++ (match o.default with | some d => [("default", .str d)] | none => []))

/-- `select_menu.rs`: `SelectMenu` (shared by the four select variants). -/
structure SelectMenu where
  custom_id : String
  options : Option (List SelectMenuOption)
  placeholder : Option String
  disabled : Option Bool
deriving DecidableEq

/-- `text_input.rs`: `TextInputStyle` (`repr(u8)`: Short=1, Paragraph=2). -/
inductive TextInputStyle where
  | Short
  | Paragraph
deriving DecidableEq

/-- Wire value of a `TextInputStyle`. -/
def TextInputStyle.toNat : TextInputStyle → Nat
  | .Short => 1
  | .Paragraph => 2

/-- `text_input.rs`: `TextInput` (`min_length`/`max_length` are `u16`,
modelled as `Nat`). -/
structure TextInput where
  custom_id : String
  style : TextInputStyle
  label : String
  min_length : Option Nat
  max_length : Option Nat
  required : Option Bool
  value : Option String
  placeholder : Option String
deriving DecidableEq

/-- `TextInputBuilder` (`text_input.rs`). -/
structure TextInputBuilder where
  custom_id : Option String
  style : Option TextInputStyle
  label : Option String
  min_length : Option Nat
  max_length : Option Nat
  required : Option Bool
  value : Option String
  placeholder : Option String
deriving DecidableEq

/-- `TextInputBuilder::new`. -/
def TextInputBuilder.new : TextInputBuilder :=
  ⟨none, none, none, none, none, none, none, none⟩

/-- Outcome of a Rust function that can return `Ok`, return `Err`, or
panic on a failed `unwrap`. -/
inductive BuildOutcome (α : Type) where
  | ok (val : α)
  | err (msg : String)
  | panicked
deriving DecidableEq

/-- `text_input.rs` lines 102-106: the label length guard (only applied
when a label is present; the message typo `longet` is from the source). -/
def checkLabelLen : Option String → Option String
  | some label =>
      if rustStrLen label > 45 then some "`label` cannot be longet than 45 chars" else none
  | none => none

/-- `text_input.rs` lines 107-111: the `min_length` guard (`u16`, so only
the upper bound 4000 is checked). -/
def checkTextInputMinLen : Option Nat → Option String
  | some m => if m > 4000 then some "`min_length` must be between 0 and 4000 chars" else none
  | none => none

/-- `text_input.rs` lines 112-116: the `max_length` guard against
`[1, 4000]` (the error message says `min_length`, as in the source). -/
def checkTextInputMaxLen : Option Nat → Option String
  | some m =>
      if m < 1 ∨ m > 4000 then some "`min_length` must be between 1 and 4000 chars" else none
  | none => none

/-- `TextInputBuilder::build` (`text_input.rs` lines 95-127): checks
`custom_id` and `style` presence, the label length only when a label is
present, then the `min_length`/`max_length` ranges — and finally calls
`self.label.unwrap()`, which panics when no label was ever set. -/
def TextInputBuilder.build (b : TextInputBuilder) : BuildOutcome TextInput :=
  match b.custom_id with
  | none => .err "`custom_id` must be set"
  | some custom_id =>
    match b.style with
    | none => .err "`style` must be set"
    | some style =>
      match checkLabelLen b.label with
      | some e => .err e
      | none =>
        match checkTextInputMinLen b.min_length with
        | some e => .err e
        | none =>
          match checkTextInputMaxLen b.max_length with
          | some e => .err e
          | none =>
            match b.label with
            | some label =>
                .ok ⟨custom_id, style, label, b.min_length, b.max_length,
                  b.required, b.value, b.placeholder⟩
            | none => .panicked

/-- `response/data/message/component/mod.rs`: the `MessageComponent` sum
type; the `ActionRow` struct is inlined as its component list. -/
inductive MessageComponent where
  | ActionRow (components : List MessageComponent)
  | Button (btn : ButtonComponent)
  | StringSelect (menu : SelectMenu)
  | TextInput (input : TextInput)
  | UserSelect (menu : SelectMenu)
  | RoleSelect (menu : SelectMenu)
  | MentionableSelect (menu : SelectMenu)
  | ChannelSelect (menu : SelectMenu)

/-- The select-menu field block repeated verbatim in every select branch of
`MessageComponent::serialize`, abstracted only over the discriminant. -/
def serializeSelectBody (disc : Int) (m : SelectMenu) : JVal :=
  .obj ([("type", .int disc), ("custom_id", .str m.custom_id)]
    ++ (match m.options with
        | some opts => [("options", .arr (opts.map serializeSelectMenuOption))]
        | none => [])
    ++ (match m.placeholder with | some p => [("placeholder", .str p)] | none => [])
    ++ (match m.disabled with | some d => [("disabled", .bool d)] | none => []))

mutual
/-- `MessageComponent::serialize` (`component/mod.rs` lines 25-152):
`ActionRow` emits `type` 1 and its children; `Button` delegates to
`ButtonComponent::serialize`; the select variants emit discriminants
3/5/6/7/8 around the shared select body; the `TextInput` branch emits
`type` 4, `custom_id`, `label` and the optional fields — it does not emit
the `style` field. -/
def serializeMessageComponent : MessageComponent → JVal
  | .ActionRow components =>
      .obj [("type", .int 1), ("components", .arr (serializeComponentList components))]
  | .Button btn => serializeButton btn
  | .StringSelect m => serializeSelectBody 3 m
  | .TextInput input =>
      .obj ([("type", .int 4), ("custom_id", .str input.custom_id),
          ("label", .str input.label)]
        ++ (match input.min_length with | some n => [("min_length", .int n)] | none => [])
        ++ (match input.max_length with | some n => [("max_length", .int n)] | none => [])
        ++ (match input.required with | some r => [("required", .bool r)] | none => [])
        ++ (match input.value with | some v => [("value", .str v)] | none => [])
        ++ (match input.placeholder with
            | some p => [("placeholder", .str p)] | none => []))
  | .UserSelect m => serializeSelectBody 5 m
  | .RoleSelect m => serializeSelectBody 6 m
  | .MentionableSelect m => serializeSelectBody 7 m
  | .ChannelSelect m => serializeSelectBody 8 m

/-- Serialization of a `Vec<MessageComponent>`. -/
def serializeComponentList : List MessageComponent → List JVal
  | [] => []
  | c :: rest => serializeMessageComponent c :: serializeComponentList rest
end

/-- `response/data/message/mod.rs`: `Message` (`flags` is the raw `u32`
`MessageFlags` bitmask). -/
structure Message where
  tts : Option Bool
  content : Option String
  flags : Option Nat
  components : Option (List MessageComponent)

/-- Derived `Serialize` for `Message`: every field is optional and skipped
when absent; `MessageFlags` serializes as its raw `u32` bits. -/
def serializeMessage (m : Message) : JVal :=
  .obj ((match m.tts with | some b => [("tts", .bool b)] | none => [])
    ++ (match m.content with | some c => [("content", .str c)] | none => [])
    ++ (match m.flags with | some f => [("flags", .int f)] | none => [])
    ++ (match m.components with
        | some cs => [("components", .arr (serializeComponentList cs))]
        | none => []))

/-- Modelled from the spec: the `Autocomplete` response payload.  Its
defining source file (`response/data`) is not under `src/`; the spec
states only that it is a payload emitted under the `data` key, so it is
kept as an opaque already-encoded payload. -/
structure Autocomplete where
  payload : JVal

/-- Modelled from the spec: the `Modal` response payload, kept opaque for
the same reason as `Autocomplete`. -/
structure Modal where
  payload : JVal

/-- Encoding of the opaque `Autocomplete` payload. -/
def serializeAutocomplete (a : Autocomplete) : JVal := a.payload

/-- Encoding of the opaque `Modal` payload. -/
def serializeModal (m : Modal) : JVal := m.payload

/-- `response/response.rs`: `InteractionResponse`. -/
inductive InteractionResponse where
  | Pong
  | Message (msg : Message)
  | DeferResponse
  | DeferredUpdateMessage (msg : Message)
  | UpdateMessage (msg : Message)
  | Autocomplete (payload : Autocomplete)
  | Modal (payload : Modal)

/-- `InteractionResponse::serialize` (`response.rs` lines 25-63): each
variant emits its discriminant under `type`; `Pong` and `DeferResponse`
skip the `data` field entirely, every other variant emits its payload
under `data`. -/
def serializeInteractionResponse : InteractionResponse → JVal
  | .Pong => .obj [("type", .int 1)]
  | .Message m => .obj [("type", .int 4), ("data", serializeMessage m)]
  | .DeferResponse => .obj [("type", .int 5)]
  | .DeferredUpdateMessage m => .obj [("type", .int 6), ("data", serializeMessage m)]
  | .UpdateMessage m => .obj [("type", .int 7), ("data", serializeMessage m)]
  | .Autocomplete a => .obj [("type", .int 8), ("data", serializeAutocomplete a)]
  | .Modal m => .obj [("type", .int 9), ("data", serializeModal m)]

/-- `interaction/data/command.rs`: `CommandInteractionData`, the recursive
decoded option node (name, kind, optional scalar value, optional child
list, optional focused flag). -/
inductive CommandInteractionData where
  | mk (name : String) (kind : CommandOptionKind) (value : Option MultiTypeValue)
      (options : Option (List CommandInteractionData)) (focused : Option Bool)

def CommandInteractionData.name : CommandInteractionData → String
  | .mk n _ _ _ _ => n

def CommandInteractionData.kind : CommandInteractionData → CommandOptionKind
  | .mk _ k _ _ _ => k

def CommandInteractionData.value : CommandInteractionData → Option MultiTypeValue
  | .mk _ _ v _ _ => v

def CommandInteractionData.options : CommandInteractionData → Option (List CommandInteractionData)
  | .mk _ _ _ o _ => o

def CommandInteractionData.focused : CommandInteractionData → Option Bool
  | .mk _ _ _ _ f => f

/-- `CommandInteractionData::option` (`command.rs` lines 57-64): linear
scan of the optional child list for the first child with the given name. -/
def CommandInteractionData.option (d : CommandInteractionData) (nm : String) :
    Option CommandInteractionData :=
  match d.options with
  | some opts => opts.find? (fun x => x.name == nm)
  | none => none

/-- `interaction/data/command.rs`: `CommandData`, the top-level decoded
command interaction (`Snowflake` is `u64`, modelled as `Nat`). -/
structure CommandData where
  id : Nat
  name : String
  kind : CommandKind
  options : Option (List CommandInteractionData)
  guild_id : Option Nat
  target_id : Option Nat

/-- `CommandData::option` (`command.rs` lines 127-134): the same linear
first-match scan as on nested nodes. -/
def CommandData.option (d : CommandData) (nm : String) : Option CommandInteractionData :=
  match d.options with
  | some opts => opts.find? (fun x => x.name == nm)
  | none => none

/-- Decode of a `u8` from a `serde_json` number. -/
def decodeU8 : Json → Except DecErr Nat
  | .numU n => if n ≤ 255 then .ok n else .error (.invalidValue "integer out of range for u8")
  | .numI _ => .error (.invalidValue "integer out of range for u8")
  | j => .error (.invalidType j.typeName "u8")

/-- `Deserialize_repr` for `CommandOptionKind`: a `u8` that must be one of
the 11 listed discriminants. -/
def decodeCommandOptionKind (j : Json) : Except DecErr CommandOptionKind := do
  let n ← decodeU8 j
  match CommandOptionKind.ofNat? n with
  | some k => pure k
  | none => throw (.invalidValue "unknown CommandOptionKind discriminant")

/-- Field accumulator for the derived `CommandInteractionData`
deserializer; the outer `Option` on each field records whether the field
has been seen (for duplicate detection), the inner value is the decoded
field. -/
structure CIDAcc where
  name : Option String
  kind : Option CommandOptionKind
  value : Option (Option MultiTypeValue)
  options : Option (Option (List CommandInteractionData))
  focused : Option (Option Bool)

mutual
/-- Derived `Deserialize` for `CommandInteractionData` (`serde` derive on
the struct at `command.rs` lines 16-24): expects a JSON object, visits its
entries in order, then requires `name` and `type`; the `Option` fields
default to `None` when missing (or `null`). -/
def decodeCID : Json → Except DecErr CommandInteractionData
  | .obj fields => do
      let acc ← decodeCIDFields fields ⟨none, none, none, none, none⟩
      let some nm := acc.name | throw (.missingField "name")
      let some k := acc.kind | throw (.missingField "type")
      pure (.mk nm k acc.value.join acc.options.join acc.focused.join)
  | j => .error (.invalidType j.typeName "struct CommandInteractionData")

/-- Entry-by-entry field visit of the derived `CommandInteractionData`
deserializer: known fields are decoded (erroring on a duplicate), unknown
fields are ignored, and a field decode error aborts immediately. -/
def decodeCIDFields : List (String × Json) → CIDAcc → Except DecErr CIDAcc
  | [], acc => .ok acc
  | (key, v) :: rest, acc =>
      if key = "name" then
        if acc.name.isSome then .error (.duplicateField "name")
        else
          match v with
          | .str s => decodeCIDFields rest ⟨some s, acc.kind, acc.value, acc.options, acc.focused⟩
          | _ => .error (.invalidType v.typeName "a string")
      else if key = "type" then
        if acc.kind.isSome then .error (.duplicateField "type")
        else
          match decodeCommandOptionKind v with
          | .ok k => decodeCIDFields rest ⟨acc.name, some k, acc.value, acc.options, acc.focused⟩
          | .error e => .error e
      else if key = "value" then
        if acc.value.isSome then .error (.duplicateField "value")
        else
          match v with
          | .null => decodeCIDFields rest ⟨acc.name, acc.kind, some none, acc.options, acc.focused⟩
          | _ =>
            match multiTypeValueDecode v with
            | .ok mv =>
                decodeCIDFields rest ⟨acc.name, acc.kind, some (some mv), acc.options, acc.focused⟩
            | .error e => .error e
      else if key = "options" then
        if acc.options.isSome then .error (.duplicateField "options")
        else
          match v with
          | .null => decodeCIDFields rest ⟨acc.name, acc.kind, acc.value, some none, acc.focused⟩
          | .arr xs =>
            match decodeCIDList xs with
            | .ok children =>
                decodeCIDFields rest ⟨acc.name, acc.kind, acc.value, some (some children), acc.focused⟩
            | .error e => .error e
          | _ => .error (.invalidType v.typeName "a sequence")
      else if key = "focused" then
        if acc.focused.isSome then .error (.duplicateField "focused")
        else
          match v with
          | .null => decodeCIDFields rest ⟨acc.name, acc.kind, acc.value, acc.options, some none⟩
          | .bool b =>
              decodeCIDFields rest ⟨acc.name, acc.kind, acc.value, acc.options, some (some b)⟩
          | _ => .error (.invalidType v.typeName "a boolean")
      else decodeCIDFields rest acc

/-- Decode of a `Vec<CommandInteractionData>`. -/
def decodeCIDList : List Json → Except DecErr (List CommandInteractionData)
  | [] => .ok []
  | x :: xs => do
      let c ← decodeCID x
      let cs ← decodeCIDList xs
      pure (c :: cs)
end

/-- `interaction/interaction.rs`: the `Interaction` envelope sum type
(`ModalSumbit` is the spelling used in the source). -/
inductive Interaction where
  | Ping
  | Command (data : CommandInteractionData)
  | MessageComponent
  | CommandAutocomplete
  | ModalSumbit

/-- The distinct error constructions of `Interaction::deserialize`:
`unknown_variant` for an unrecognized discriminant (carrying the offending
value), the custom "no data" error for a missing payload on discriminant
2, the custom wrapper around the payload decode error for a malformed
payload, and a failure while decoding `InteractionRaw` itself. -/
inductive EnvError where
  | unknownVariant (value : Nat)
  | payloadMissing
  | payloadMalformed (e : DecErr)
  | rawError (e : DecErr)
deriving DecidableEq

/-- Field accumulator for the derived `InteractionRaw` deserializer. -/
structure InteractionRawAcc where
  kind : Option Nat
  data : Option (Option Json)

/-- `interaction/interaction.rs` lines 42-47: `InteractionRaw`, the raw
envelope (`type` renamed to `kind`, a `u8`; `data` an optional raw JSON
value). -/
structure InteractionRaw where
  kind : Nat
  data : Option Json

/-- Entry-by-entry field visit of the derived `InteractionRaw`
deserializer (`type` is a `u8`; `data` is `Option<serde_json::Value>`, so
a `null` becomes `None` and any other value is kept raw). -/
def decodeInteractionRawFields :
    List (String × Json) → InteractionRawAcc → Except DecErr InteractionRawAcc
  | [], acc => .ok acc
  | (key, v) :: rest, acc =>
      if key = "type" then
        if acc.kind.isSome then .error (.duplicateField "type")
        else
          match decodeU8 v with
          | .ok n => decodeInteractionRawFields rest ⟨some n, acc.data⟩
          | .error e => .error e
      else if key = "data" then
        if acc.data.isSome then .error (.duplicateField "data")
        else
          match v with
          | .null => decodeInteractionRawFields rest ⟨acc.kind, some none⟩
          | _ => decodeInteractionRawFields rest ⟨acc.kind, some (some v)⟩
      else decodeInteractionRawFields rest acc

/-- Derived `Deserialize` for `InteractionRaw`: expects an object and
requires the `type` field; `data` defaults to `None`. -/
def decodeInteractionRaw : Json → Except DecErr InteractionRaw
  | .obj fields => do
      let acc ← decodeInteractionRawFields fields ⟨none, none⟩
      let some k := acc.kind | throw (.missingField "type")
      pure ⟨k, acc.data.join⟩
  | j => .error (.invalidType j.typeName "struct InteractionRaw")

/-- The discriminant dispatch of `Interaction::deserialize`
(`interaction.rs` lines 77-102): 1 is `Ping`; 2 requires the `data`
payload and decodes it as `CommandInteractionData`, propagating a decode
failure and failing with the distinct "no data" error when the payload is
absent; 3, 4, 5 are recognized with the payload ignored; anything else is
an unknown variant carrying the offending value. -/
def interactionFromRaw (raw : InteractionRaw) : Except EnvError Interaction :=
  match raw.kind with
  | 1 => .ok .Ping
  | 2 =>
    match raw.data with
    | some d =>
        match decodeCID d with
        | .ok c => .ok (.Command c)
        | .error e => .error (.payloadMalformed e)
    | none => .error .payloadMissing
  | 3 => .ok .MessageComponent
  | 4 => .ok .CommandAutocomplete
  | 5 => .ok .ModalSumbit
  | other => .error (.unknownVariant other)

/-- `Interaction::deserialize` (`interaction.rs` lines 71-103): decode the
raw envelope, then dispatch on the discriminant. -/
def interactionDeserialize (j : Json) : Except EnvError Interaction :=
  match decodeInteractionRaw j with
  | .ok raw => interactionFromRaw raw
  | .error e => .error (.rawError e)

/-- The integer payload of a choice/constraint scalar, when it has one. -/
def ChoiceValue.intVal : ChoiceValue → Option ℤ
  | .Int n => some n.val
  | _ => none

/-- The integer payload of a decoded-option scalar, when it has one. -/
def MultiTypeValue.intVal : MultiTypeValue → Option Int
  | .Integer n => some n.val
  | _ => none

/-- Whether a `Result` is `Ok`. -/
def exceptIsOk {ε α : Type} : Except ε α → Bool
  | .ok _ => true
  | .error _ => false

/-- Whether a possibly-panicking build returned `Ok`. -/
def buildOutcomeIsOk {α : Type} : BuildOutcome α → Bool
  | .ok _ => true
  | _ => false

/-- A command-option builder state with presence checks satisfied, a
`min_length` violating only its range check, and a `max_length` violating
its type check (`Float`): the actual error order of the build disagrees
here with the all-type-checks-then-all-range-checks order stated by the
spec. -/
def orderCexBuilder : CommandOptionBuilder :=
  ⟨some .String, some "opt", some "descr", none, none, none, none, none,
    some (.Int ⟨6001, by norm_num⟩), some (.Float (.lit 0)), none⟩

/-- A command-option builder state differing from `CommandOptionBuilder.new`
only in `kind`, `name`, `description` and the given length fields. -/
def lengthBuilder (ml xl : Option ChoiceValue) : CommandOptionBuilder :=
  ⟨some .String, some "opt", some "descr", none, none, none, none, none, ml, xl, none⟩

/-- A text-input builder state with `custom_id`, `style` and `label` set
and the given length fields. -/
def tiLengthBuilder (mn mx : Option Nat) : TextInputBuilder :=
  ⟨some "cid", some .Short, some "lab", mn, mx, none, none, none⟩

/-- A text-input builder state with `custom_id` and `style` set, no label,
and an out-of-range `min_length`: its build returns an error instead of
reaching the panicking `label` unwrap. -/
def noLabelBadLenBuilder : TextInputBuilder :=
  ⟨some "cid", some .Short, none, some 4001, none, none, none, none⟩

/-- A text-input builder state with `custom_id` and `style` set and no
label, all remaining fields unset. -/
def noLabelBuilder : TextInputBuilder :=
  ⟨some "cid", some .Short, none, none, none, none, none, none⟩

/-- A choice whose string value is 101 ASCII characters (= 101 bytes). -/
def longChoice : Choice := ⟨"nm", .String (String.mk (List.replicate 101 'a'))⟩

/-- A choice whose string value is 100 ASCII characters (= 100 bytes). -/
def cappedChoice : Choice := ⟨"nm", .String (String.mk (List.replicate 100 'a'))⟩

/-- A decoded child node named `dup` carrying the string value `first`. -/
def firstChild : CommandInteractionData :=
  .mk "dup" .String (some (.String "first")) none none

/-- A second decoded child also named `dup`, carrying `second`. -/
def secondChild : CommandInteractionData :=
  .mk "dup" .String (some (.String "second")) none none

/-- A decoded parent node whose two children share the name `dup`. -/
def dupParent : CommandInteractionData :=
  .mk "parent" .SubCommand none (some [firstChild, secondChild]) none

/-!
Claim theorems for the specification of serde_discord.
-/

/-- C2 (evidence of the code bug): serializing a `Button` through
`MessageComponent::serialize` emits the discriminant 5 (the claimed and
platform value is 2, and 5 collides with `UserSelect`) and emits the
present `disabled` flag under the wire key `url` rather than `disabled`;
serializing a `TextInput` emits no `style` field at all, though the claim
(and the `TextInput` struct, whose `style` is a required field) calls for
it.  The skipped-field branches of the source name the intended keys, so
the code, not the claim, is the slip. -/
theorem button_textinput_serialize_divergence :
    serializeMessageComponent (.Button ⟨.Primary, none, none, none, some true⟩)
      = .obj [("type", .int 5), ("style", .int 1), ("url", .bool true)] ∧
    "disabled" ∉
      (serializeMessageComponent (.Button ⟨.Primary, none, none, none, some true⟩)).objKeys ∧
    serializeMessageComponent
        (.TextInput ⟨"cid", .Short, "lab", none, none, none, none, none⟩)
      = .obj [("type", .int 4), ("custom_id", .str "cid"), ("label", .str "lab")] ∧
    "style" ∉
      (serializeMessageComponent
        (.TextInput ⟨"cid", .Short, "lab", none, none, none, none, none⟩)).objKeys :=
  ⟨rfl, by decide, rfl, by decide⟩

/-- C8: `InteractionResponse` serialization emits discriminant 1 for
`Pong`, 4 for `Message`, 5 for `DeferResponse`, 6 for
`DeferredUpdateMessage`, 7 for `UpdateMessage`, 8 for `Autocomplete` and 9
for `Modal` under the `type` key, the payload-carrying variants place
their payload under `data`, and `Pong` and `DeferResponse` omit the `data`
key entirely (their emitted object has no `data` key at all, so in
particular no `null` and no empty object is written for it). -/
theorem interaction_response_discriminants :
    serializeInteractionResponse .Pong = .obj [("type", .int 1)] ∧
    "data" ∉ (serializeInteractionResponse .Pong).objKeys ∧
    serializeInteractionResponse .DeferResponse = .obj [("type", .int 5)] ∧
    "data" ∉ (serializeInteractionResponse .DeferResponse).objKeys ∧
    (∀ m : Message, serializeInteractionResponse (.Message m)
      = .obj [("type", .int 4), ("data", serializeMessage m)]) ∧
    (∀ m : Message, serializeInteractionResponse (.DeferredUpdateMessage m)
      = .obj [("type", .int 6), ("data", serializeMessage m)]) ∧
    (∀ m : Message, serializeInteractionResponse (.UpdateMessage m)
      = .obj [("type", .int 7), ("data", serializeMessage m)]) ∧
    (∀ a : Autocomplete, serializeInteractionResponse (.Autocomplete a)
      = .obj [("type", .int 8), ("data", serializeAutocomplete a)]) ∧
    (∀ m : Modal, serializeInteractionResponse (.Modal m)
      = .obj [("type", .int 9), ("data", serializeModal m)]) :=
  ⟨rfl, by decide, rfl, by decide,
   fun _ => rfl, fun _ => rfl, fun _ => rfl, fun _ => rfl, fun _ => rfl⟩

/-- C9 (counterexample): the claim says every 64-bit signed integer is
representable as a choice value; in the code `ChoiceValue::Int` carries an
`i32`, so the 64-bit value `2^63 - 1` has no representation as a choice
(or constraint) scalar. -/
theorem choice_value_not_64bit :
    ¬ ∃ c : ChoiceValue, c.intVal = some (2 ^ 63 - 1) := by
  rintro ⟨c, h⟩
  cases c with
  | Int n =>
      simp only [ChoiceValue.intVal, Option.some.injEq] at h
      have hb := n.2
      norm_num at hb h
      omega
  | Float f => simp [ChoiceValue.intVal] at h
  | String s => simp [ChoiceValue.intVal] at h

/-- C9 (amended): the integer width of the polymorphic scalar differs by
context — the choice/constraint context (`ChoiceValue::Int`, also used for
`min_value`/`max_value`/`min_length`/`max_length`) represents exactly the
32-bit signed integers, while the decoded-option context
(`MultiTypeValue::Integer`) represents exactly the 64-bit signed
integers. -/
theorem scalar_int_context_widths :
    (∀ n : ℤ, (∃ c : ChoiceValue, c.intVal = some n) ↔ -(2 ^ 31) ≤ n ∧ n < 2 ^ 31) ∧
    (∀ n : ℤ, (∃ m : MultiTypeValue, m.intVal = some n) ↔ -(2 ^ 63) ≤ n ∧ n < 2 ^ 63) := by
  constructor
  · intro n
    constructor
    · rintro ⟨c, h⟩
      cases c with
      | Int m =>
          simp only [ChoiceValue.intVal, Option.some.injEq] at h
          exact h ▸ m.2
      | Float f => simp [ChoiceValue.intVal] at h
      | String s => simp [ChoiceValue.intVal] at h
    · intro hb
      exact ⟨.Int ⟨n, hb⟩, rfl⟩
  · intro n
    constructor
    · rintro ⟨m, h⟩
      cases m with
      | Integer k =>
          simp only [MultiTypeValue.intVal, Option.some.injEq] at h
          exact h ▸ k.2
      | String s => simp [MultiTypeValue.intVal] at h
      | Double f => simp [MultiTypeValue.intVal] at h
      | Boolean b => simp [MultiTypeValue.intVal] at h
    · intro hb
      exact ⟨.Integer ⟨n, hb⟩, rfl⟩

/-- Witness for `scalar_int_context_widths`: instantiating both context
characterizations at the concrete integer 0. -/
theorem scalar_int_context_widths_witness :
    (∃ c : ChoiceValue, c.intVal = some 0) ∧ ∃ m : MultiTypeValue, m.intVal = some 0 :=
  ⟨(scalar_int_context_widths.1 0).mpr (by norm_num),
   (scalar_int_context_widths.2 0).mpr (by norm_num)⟩

/-- C5 (counterexample): the claim says an option `max_length` of 4001
makes the build fail, but 4001 lies inside the option range `[1, 6000]`,
so the build succeeds. -/
theorem option_max_length_4001_builds :
    exceptIsOk (CommandOptionBuilder.build
      (lengthBuilder none (some (.Int ⟨4001, by norm_num⟩)))) = true := rfl

/-- C5 (amended): boundary behaviour of the length checks — for the
command-option builder `max_length` is checked against `[1, 6000]` (0 and
6001 fail with the at-least-1 and greater-than-6000 errors; 1, 4001 and
6000 succeed) and `min_length` against `[0, 6000]` (6001 fails; 0 and 6000
succeed); for the text-input builder `max_length` is checked against
`[1, 4000]` (0 and 4001 fail; 1 and 4000 succeed) and `min_length` against
`[0, 4000]` (4001 fails; 0 and 4000 succeed). -/
theorem length_check_boundaries :
    CommandOptionBuilder.build (lengthBuilder none (some (.Int ⟨0, by norm_num⟩)))
      = .error "`max_length` must be at least 1" ∧
    exceptIsOk (CommandOptionBuilder.build
      (lengthBuilder none (some (.Int ⟨1, by norm_num⟩)))) = true ∧
    exceptIsOk (CommandOptionBuilder.build
      (lengthBuilder none (some (.Int ⟨4001, by norm_num⟩)))) = true ∧
    exceptIsOk (CommandOptionBuilder.build
      (lengthBuilder none (some (.Int ⟨6000, by norm_num⟩)))) = true ∧
    CommandOptionBuilder.build (lengthBuilder none (some (.Int ⟨6001, by norm_num⟩)))
      = .error "`max_length` cannot be greater than 6000" ∧
    CommandOptionBuilder.build (lengthBuilder (some (.Int ⟨6001, by norm_num⟩)) none)
      = .error "`min_length` cannot be greater than 6000" ∧
    exceptIsOk (CommandOptionBuilder.build
      (lengthBuilder (some (.Int ⟨0, by norm_num⟩)) none)) = true ∧
    exceptIsOk (CommandOptionBuilder.build
      (lengthBuilder (some (.Int ⟨6000, by norm_num⟩)) none)) = true ∧
    TextInputBuilder.build (tiLengthBuilder none (some 0))
      = .err "`min_length` must be between 1 and 4000 chars" ∧
    TextInputBuilder.build (tiLengthBuilder none (some 4001))
      = .err "`min_length` must be between 1 and 4000 chars" ∧
    buildOutcomeIsOk (TextInputBuilder.build (tiLengthBuilder none (some 1))) = true ∧
    buildOutcomeIsOk (TextInputBuilder.build (tiLengthBuilder none (some 4000))) = true ∧
    TextInputBuilder.build (tiLengthBuilder (some 4001) none)
      = .err "`min_length` must be between 0 and 4000 chars" ∧
    buildOutcomeIsOk (TextInputBuilder.build (tiLengthBuilder (some 0) none)) = true ∧
    buildOutcomeIsOk (TextInputBuilder.build (tiLengthBuilder (some 4000) none)) = true :=
  ⟨rfl, rfl, rfl, rfl, rfl, rfl, rfl, rfl, rfl, rfl, rfl, rfl, rfl, rfl, rfl⟩

/-- C10 (counterexample): the claim says the build panics for every
state with `custom_id` and `style` set and `label` unset, but a state
whose `min_length` fails its range check returns that range error before
the panicking `label` unwrap is reached. -/
theorem text_input_build_error_not_panic_cex :
    TextInputBuilder.build noLabelBadLenBuilder
      = .err "`min_length` must be between 0 and 4000 chars" ∧
    TextInputBuilder.build noLabelBadLenBuilder ≠ .panicked :=
  ⟨rfl, by decide⟩

/-- C10 (amended): `TextInputBuilder::build` panics — despite
returning a `Result` — for every state in which `custom_id` and `style`
are set, `label` was never set, and the `min_length`/`max_length` guards
pass (the label length guard passes vacuously when no label is present):
presence of `custom_id` and `style` is checked, the label length only when
a label exists, the two range guards run, and then `label` is unwrapped
unconditionally.  Total behaviour therefore requires a set label as a
precondition. -/
theorem text_input_build_panics_without_label :
    ∀ (b : TextInputBuilder) (cid : String) (st : TextInputStyle),
      b.custom_id = some cid → b.style = some st → b.label = none →
      checkTextInputMinLen b.min_length = none →
      checkTextInputMaxLen b.max_length = none →
      b.build = .panicked := by
  intro b cid st hcid hst hlab hmin hmax
  unfold TextInputBuilder.build
  rw [hcid, hst, hlab]
  simp only [checkLabelLen]
  rw [hmin, hmax]

/-- Witness for `text_input_build_panics_without_label` at a concrete
builder state. -/
theorem text_input_build_panics_without_label_witness :
    TextInputBuilder.build noLabelBuilder = .panicked :=
  text_input_build_panics_without_label noLabelBuilder "cid" .Short rfl rfl rfl rfl rfl

/-- C3: the scalar decode rule — a string yields `String`, a boolean
yields `Boolean`, an unsigned integer at most the signed 64-bit maximum
yields `Integer` by cast, an unsigned integer above that bound yields
`Double` by the lossy widening, a (negative) signed integer yields
`Integer`, a floating-point number yields `Double`, and the remaining JSON
shapes (null, array, object) fail with the type-mismatch error. -/
theorem multi_type_value_decode_rule :
    (∀ s, multiTypeValueDecode (.str s) = .ok (.String s)) ∧
    (∀ b, multiTypeValueDecode (.bool b) = .ok (.Boolean b)) ∧
    (∀ n : Nat, n ≤ 2 ^ 63 - 1 →
      ∃ m : Int64, multiTypeValueDecode (.numU n) = .ok (.Integer m) ∧ m.val = (n : ℤ)) ∧
    (∀ n : Nat, 2 ^ 63 - 1 < n → n < 2 ^ 64 →
      multiTypeValueDecode (.numU n) = .ok (.Double (.ofU64 n))) ∧
    (∀ n : Int64, multiTypeValueDecode (.numI n) = .ok (.Integer n)) ∧
    (∀ f, multiTypeValueDecode (.numF f) = .ok (.Double f)) ∧
    multiTypeValueDecode .null
      = .error (.invalidType "null" "a string, integer, double, or boolean value") ∧
    (∀ xs, multiTypeValueDecode (.arr xs)
      = .error (.invalidType "an array" "a string, integer, double, or boolean value")) ∧
    (∀ fs, multiTypeValueDecode (.obj fs)
      = .error (.invalidType "an object" "a string, integer, double, or boolean value")) := by
  refine ⟨fun s => rfl, fun b => rfl, ?_, ?_, fun n => rfl, fun f => rfl, rfl,
    fun xs => rfl, fun fs => rfl⟩
  · intro n hn
    refine ⟨⟨(n : ℤ), by omega⟩, ?_, rfl⟩
    simp only [multiTypeValueDecode]
    rw [dif_pos hn]
  · intro n h1 h2
    simp only [multiTypeValueDecode]
    rw [dif_neg (by omega)]

/-- Witness for `multi_type_value_decode_rule`: the threshold instances —
`2^63 - 1` decodes to `Integer`, `2^63` decodes to `Double`. -/
theorem multi_type_value_decode_rule_witness :
    (∃ m : Int64, multiTypeValueDecode (.numU (2 ^ 63 - 1)) = .ok (.Integer m)
      ∧ m.val = ((2 ^ 63 - 1 : Nat) : ℤ)) ∧
    multiTypeValueDecode (.numU (2 ^ 63)) = .ok (.Double (.ofU64 (2 ^ 63))) :=
  ⟨multi_type_value_decode_rule.2.2.1 (2 ^ 63 - 1) (by norm_num),
   multi_type_value_decode_rule.2.2.2.1 (2 ^ 63) (by norm_num) (by norm_num)⟩

/-- C6: the 100-byte cap on choice string values — serialization of a
`Choice` with a string value fails exactly when the string exceeds 100
bytes, a builder holding an over-long string value can never produce an
`Ok`, and any choice produced by the builder carries a string value of at
most 100 bytes. -/
theorem choice_string_length_cap :
    (∀ (c : Choice) (s : String), c.value = .String s →
      (100 < rustStrLen s →
        serializeChoice c = .error "Value cannot be longer than 100 chars") ∧
      (rustStrLen s ≤ 100 →
        serializeChoice c = .ok (.obj [("name", .str c.name), ("value", .str s)]))) ∧
    (∀ (b : CommandOptionChoiceBuilder) (s : String), b.value = some (.String s) →
      100 < rustStrLen s → ∀ c : Choice, b.build ≠ .ok c) ∧
    (∀ (b : CommandOptionChoiceBuilder) (c : Choice), b.build = .ok c →
      ∀ s, c.value = .String s → rustStrLen s ≤ 100) := by
  refine ⟨?_, ?_, ?_⟩
  · intro c s hv
    constructor
    · intro h
      unfold serializeChoice
      rw [hv]
      dsimp only
      rw [if_pos h]
    · intro h
      unfold serializeChoice
      rw [hv]
      dsimp only
      rw [if_neg (by omega)]
  · intro b s hv hlen c hok
    unfold CommandOptionChoiceBuilder.build at hok
    cases hn : b.name with
    | none => rw [hn] at hok; exact absurd hok (by simp)
    | some nm =>
      rw [hn, hv] at hok
      dsimp only at hok
      rw [if_pos hlen] at hok
      exact absurd hok (by simp)
  · intro b c hok s hv
    unfold CommandOptionChoiceBuilder.build at hok
    cases hn : b.name with
    | none => rw [hn] at hok; exact absurd hok (by simp)
    | some nm =>
      rw [hn] at hok
      cases hb : b.value with
      | none => rw [hb] at hok; exact absurd hok (by simp)
      | some v =>
        rw [hb] at hok
        cases v with
        | String s0 =>
            dsimp only at hok
            by_cases hlen : rustStrLen s0 > 100
            · rw [if_pos hlen] at hok
              exact absurd hok (by simp)
            · rw [if_neg hlen] at hok
              simp only [Except.ok.injEq] at hok
              subst hok
              simp only at hv
              cases hv
              omega
        | Int m =>
            dsimp only at hok
            simp only [Except.ok.injEq] at hok
            subst hok
            simp [ChoiceValue.intVal] at hv
        | Float f =>
            dsimp only at hok
            simp only [Except.ok.injEq] at hok
            subst hok
            simp [ChoiceValue.intVal] at hv

/-- Witness for `choice_string_length_cap`: a 101-ASCII-character string
value fails to serialize and cannot be built, a 100-character one
serializes. -/
theorem choice_string_length_cap_witness :
    serializeChoice longChoice = .error "Value cannot be longer than 100 chars" ∧
    serializeChoice cappedChoice
      = .ok (.obj [("name", .str "nm"),
          ("value", .str (String.mk (List.replicate 100 'a')))]) ∧
    ∀ c : Choice,
      CommandOptionChoiceBuilder.build
        ⟨some "nm", some (.String (String.mk (List.replicate 101 'a')))⟩ ≠ .ok c :=
  ⟨(choice_string_length_cap.1 longChoice _ rfl).1 (by decide),
   (choice_string_length_cap.1 cappedChoice _ rfl).2 (by decide),
   fun c => choice_string_length_cap.2.1 _ _ rfl (by decide) c⟩

/-- Helper for C7: `List.find?` with the name-equality predicate returns
`some c` exactly when `c` is the first element carrying the name. -/
theorem find_name_eq_some_iff
    (l : List CommandInteractionData) (nm : String) (c : CommandInteractionData) :
    l.find? (fun x => x.name == nm) = some c ↔
      c.name = nm ∧ ∃ pre suf, l = pre ++ c :: suf ∧ ∀ x ∈ pre, x.name ≠ nm := by
  induction l with
  | nil => simp
  | cons a rest ih =>
    by_cases ha : a.name = nm
    · rw [List.find?_cons_of_pos _ (by simpa using ha)]
      constructor
      · intro h
        injection h with h
        subst h
        exact ⟨ha, [], rest, rfl, by simp⟩
      · rintro ⟨hc, pre, suf, hdec, hpre⟩
        cases pre with
        | nil =>
            simp only [List.nil_append, List.cons.injEq] at hdec
            rw [hdec.1]
        | cons p ps =>
            simp only [List.cons_append, List.cons.injEq] at hdec
            exact absurd (hdec.1 ▸ ha) (hpre p (by simp))
    · rw [List.find?_cons_of_neg _ (by simpa using ha)]
      rw [ih]
      constructor
      · rintro ⟨hc, pre, suf, hdec, hpre⟩
        refine ⟨hc, a :: pre, suf, by simp [hdec], ?_⟩
        intro x hx
        rcases List.mem_cons.mp hx with hx | hx
        · exact hx ▸ ha
        · exact hpre x hx
      · rintro ⟨hc, pre, suf, hdec, hpre⟩
        cases pre with
        | nil =>
            simp only [List.nil_append, List.cons.injEq] at hdec
            exact absurd (hdec.1 ▸ hc) ha
        | cons p ps =>
            simp only [List.cons_append, List.cons.injEq] at hdec
            exact ⟨hc, ps, suf, hdec.2, fun x hx => hpre x (by simp [hx])⟩

/-- C7: `option(name)` on a decoded node — both on nested
`CommandInteractionData` nodes and on the top-level `CommandData` — scans
the optional child list in order and returns the first child whose name
equals the argument exactly, and returns absence exactly when there is no
child list or no child matches. -/
theorem option_lookup_first_match :
    (∀ (d : CommandInteractionData) (nm : String),
      (d.option nm = none ↔ ∀ l, d.options = some l → ∀ x ∈ l, x.name ≠ nm) ∧
      (∀ c, d.option nm = some c ↔
        ∃ l pre suf, d.options = some l ∧ l = pre ++ c :: suf ∧ c.name = nm ∧
          ∀ x ∈ pre, x.name ≠ nm)) ∧
    (∀ (d : CommandData) (nm : String),
      (d.option nm = none ↔ ∀ l, d.options = some l → ∀ x ∈ l, x.name ≠ nm) ∧
      (∀ c, d.option nm = some c ↔
        ∃ l pre suf, d.options = some l ∧ l = pre ++ c :: suf ∧ c.name = nm ∧
          ∀ x ∈ pre, x.name ≠ nm)) := by
  constructor
  · intro d nm
    unfold CommandInteractionData.option
    cases ho : d.options with
    | none => simp
    | some l =>
      constructor
      · rw [List.find?_eq_none]
        simp
      · intro c
        rw [find_name_eq_some_iff]
        constructor
        · rintro ⟨hc, pre, suf, hdec, hpre⟩
          exact ⟨l, pre, suf, rfl, hdec, hc, hpre⟩
        · rintro ⟨l2, pre, suf, hl2, hdec, hc, hpre⟩
          injection hl2 with hl2
          exact ⟨hc, pre, suf, hl2 ▸ hdec, hpre⟩
  · intro d nm
    unfold CommandData.option
    cases ho : d.options with
    | none => simp
    | some l =>
      constructor
      · rw [List.find?_eq_none]
        simp
      · intro c
        rw [find_name_eq_some_iff]
        constructor
        · rintro ⟨hc, pre, suf, hdec, hpre⟩
          exact ⟨l, pre, suf, rfl, hdec, hc, hpre⟩
        · rintro ⟨l2, pre, suf, hl2, hdec, hc, hpre⟩
          injection hl2 with hl2
          exact ⟨hc, pre, suf, hl2 ▸ hdec, hpre⟩

/-- Witness for `option_lookup_first_match`: on a node with two children
sharing the name `dup`, lookup returns the first in document order. -/
theorem option_lookup_first_match_witness :
    dupParent.option "dup" = some firstChild :=
  ((option_lookup_first_match.1 dupParent "dup").2 firstChild).mpr
    ⟨[firstChild, secondChild], [], [secondChild], rfl, rfl, rfl, by simp⟩

/-- C4 (counterexample): at a builder state whose `min_length` is the
integer 6001 (violating only its range) and whose `max_length` is a
`Float` (violating its type check), the claimed
presence-then-all-types-then-all-ranges order would fail with the
`max_length` type error first, but the build actually fails with the
`min_length` range error — the type and range checks are interleaved per
field. -/
theorem command_option_build_order_cex :
    CommandOptionBuilder.build orderCexBuilder
      = .error "`min_length` cannot be greater than 6000" ∧
    CommandOptionBuilder.build orderCexBuilder
      ≠ .error "`max_length` must be an integer" := by
  constructor
  · rfl
  · intro h
    have h2 : (Except.error "`min_length` cannot be greater than 6000" :
        Except String CommandOption) = .error "`max_length` must be an integer" := h
    simp only [Except.error.injEq] at h2
    exact absurd h2 (by decide)

/-- C4 (amended): `CommandOption` `build()` runs its guards in source
order — presence of `kind`, then `name`, then `description`; then the
`min_value` not-a-String check, then the `max_value` not-a-String check;
then for `min_length` a type-then-range check and then for `max_length` a
type-then-range check (type and range interleaved per length field rather
than all type checks before all range checks) — failing the whole build
with the error of the first violated rule and constructing no partial value;
the guard semantics are characterized below; `Command` `build()` requires
`name` and `kind` and defaults `description` to the empty string; a
successful build yields exactly the immutable value assembled from the
builder fields. -/
theorem command_option_build_check_order :
    (∀ b : CommandOptionBuilder, b.kind = none →
      b.build = .error "`kind` must be set") ∧
    (∀ (b : CommandOptionBuilder) (k : CommandOptionKind),
      b.kind = some k → b.name = none → b.build = .error "`name` must be set") ∧
    (∀ (b : CommandOptionBuilder) (k : CommandOptionKind) (n : String),
      b.kind = some k → b.name = some n → b.description = none →
      b.build = .error "`description` must be set") ∧
    (∀ (b : CommandOptionBuilder) (k : CommandOptionKind) (n dsc e : String),
      b.kind = some k → b.name = some n → b.description = some dsc →
      checkMinValue b.min_value = some e → b.build = .error e) ∧
    (∀ (b : CommandOptionBuilder) (k : CommandOptionKind) (n dsc e : String),
      b.kind = some k → b.name = some n → b.description = some dsc →
      checkMinValue b.min_value = none → checkMaxValue b.max_value = some e →
      b.build = .error e) ∧
    (∀ (b : CommandOptionBuilder) (k : CommandOptionKind) (n dsc e : String),
      b.kind = some k → b.name = some n → b.description = some dsc →
      checkMinValue b.min_value = none → checkMaxValue b.max_value = none →
      checkOptionMinLength b.min_length = some e → b.build = .error e) ∧
    (∀ (b : CommandOptionBuilder) (k : CommandOptionKind) (n dsc e : String),
      b.kind = some k → b.name = some n → b.description = some dsc →
      checkMinValue b.min_value = none → checkMaxValue b.max_value = none →
      checkOptionMinLength b.min_length = none →
      checkOptionMaxLength b.max_length = some e → b.build = .error e) ∧
    (∀ (b : CommandOptionBuilder) (k : CommandOptionKind) (n dsc : String),
      b.kind = some k → b.name = some n → b.description = some dsc →
      checkMinValue b.min_value = none → checkMaxValue b.max_value = none →
      checkOptionMinLength b.min_length = none →
      checkOptionMaxLength b.max_length = none →
      b.build = .ok (.mk k n dsc b.required b.choices b.options
        b.min_value b.max_value b.min_length b.max_length b.autocomplete)) ∧
    (∀ v : Option ChoiceValue, checkMinValue v = none ↔ ∀ s, v ≠ some (.String s)) ∧
    (∀ v : Option ChoiceValue, checkMaxValue v = none ↔ ∀ s, v ≠ some (.String s)) ∧
    (∀ m : Int32, checkOptionMinLength (some (.Int m)) = none ↔
      0 ≤ m.val ∧ m.val ≤ 6000) ∧
    (∀ m : Int32, checkOptionMaxLength (some (.Int m)) = none ↔
      1 ≤ m.val ∧ m.val ≤ 6000) ∧
    (∀ f, checkOptionMinLength (some (.Float f))
      = some "`min_length` must be an integer") ∧
    (∀ s, checkOptionMinLength (some (.String s))
      = some "`min_length` must be an integer") ∧
    (∀ f, checkOptionMaxLength (some (.Float f))
      = some "`max_length` must be an integer") ∧
    (∀ s, checkOptionMaxLength (some (.String s))
      = some "`max_length` must be an integer") ∧
    checkOptionMinLength none = none ∧ checkOptionMaxLength none = none ∧
    (∀ cb : CommandBuilder, cb.name = none → cb.build = .error "`name` must be set") ∧
    (∀ (cb : CommandBuilder) (n : String), cb.name = some n → cb.kind = none →
      cb.build = .error "`kind` must be set") ∧
    (∀ (cb : CommandBuilder) (n : String) (k : CommandKind), cb.name = some n →
      cb.kind = some k → cb.build = .ok ⟨n, k, cb.description.getD "", cb.options⟩) := by
  refine ⟨?_, ?_, ?_, ?_, ?_, ?_, ?_, ?_, ?_, ?_, ?_, ?_,
    fun f => rfl, fun s => rfl, fun f => rfl, fun s => rfl, rfl, rfl, ?_, ?_, ?_⟩
  · intro b h
    unfold CommandOptionBuilder.build
    rw [h]
  · intro b k h1 h2
    unfold CommandOptionBuilder.build
    rw [h1, h2]
  · intro b k n h1 h2 h3
    unfold CommandOptionBuilder.build
    rw [h1, h2, h3]
  · intro b k n dsc e h1 h2 h3 h4
    unfold CommandOptionBuilder.build
    rw [h1, h2, h3, h4]
  · intro b k n dsc e h1 h2 h3 h4 h5
    unfold CommandOptionBuilder.build
    rw [h1, h2, h3, h4, h5]
  · intro b k n dsc e h1 h2 h3 h4 h5 h6
    unfold CommandOptionBuilder.build
    rw [h1, h2, h3, h4, h5, h6]
  · intro b k n dsc e h1 h2 h3 h4 h5 h6 h7
    unfold CommandOptionBuilder.build
    rw [h1, h2, h3, h4, h5, h6, h7]
  · intro b k n dsc h1 h2 h3 h4 h5 h6 h7
    unfold CommandOptionBuilder.build
    rw [h1, h2, h3, h4, h5, h6, h7]
  · intro v
    rcases v with _ | cv
    · simp [checkMinValue]
    · cases cv with
      | Int m => simp [checkMinValue]
      | Float f => simp [checkMinValue]
      | String s0 =>
          simp only [checkMinValue]
          constructor
          · intro h
            exact absurd h (by simp)
          · intro h
            exact absurd rfl (h s0)
  · intro v
    rcases v with _ | cv
    · simp [checkMaxValue]
    · cases cv with
      | Int m => simp [checkMaxValue]
      | Float f => simp [checkMaxValue]
      | String s0 =>
          simp only [checkMaxValue]
          constructor
          · intro h
            exact absurd h (by simp)
          · intro h
            exact absurd rfl (h s0)
  · intro m
    simp only [checkOptionMinLength]
    split_ifs with h1 h2 <;> simp <;> omega
  · intro m
    simp only [checkOptionMaxLength]
    split_ifs with h1 h2 <;> simp <;> omega
  · intro cb h
    unfold CommandBuilder.build
    rw [h]
  · intro cb n h1 h2
    unfold CommandBuilder.build
    rw [h1, h2]
  · intro cb n k h1 h2
    unfold CommandBuilder.build
    rw [h1, h2]

/-- Witness for `command_option_build_check_order`: the empty option
builder fails on the `kind` presence check, a fully-set builder builds the
exact immutable value, and a command builder with no description defaults
it to the empty string. -/
theorem command_option_build_check_order_witness :
    CommandOptionBuilder.build CommandOptionBuilder.new = .error "`kind` must be set" ∧
    CommandOptionBuilder.build (lengthBuilder none none)
      = .ok (.mk .String "opt" "descr" none none none none none none none none) ∧
    CommandBuilder.build ⟨some "cmd", some .ChatInput, none, none⟩
      = .ok ⟨"cmd", .ChatInput, "", none⟩ :=
  ⟨command_option_build_check_order.1 CommandOptionBuilder.new rfl,
   command_option_build_check_order.2.2.2.2.2.2.2.1
     (lengthBuilder none none) .String "opt" "descr" rfl rfl rfl rfl rfl rfl rfl,
   command_option_build_check_order.2.2.2.2.2.2.2.2.2.2.2.2.2.2.2.2.2.2.2.2
     ⟨some "cmd", some .ChatInput, none, none⟩ "cmd" .ChatInput rfl rfl⟩

/-- C1: the interaction envelope decode dispatches on the numeric
discriminant read first from the raw envelope: 1 yields `Ping` with no
payload decode; 2 requires the `data` payload (failing with the distinct
missing-payload error when absent) and yields `Command` on a successful
payload decode, and propagates a malformed payload as a decode error; 3, 4
and 5 yield `MessageComponent`, `CommandAutocomplete` and `ModalSumbit`
with the payload ignored; every other `u8` discriminant fails with the
unknown-variant error carrying the offending value; the missing-payload
error differs from every malformed-payload error; and every decode yields
exactly one envelope value or one error. -/
theorem interaction_envelope_dispatch :
    (∀ raw : InteractionRaw, raw.kind = 1 → interactionFromRaw raw = .ok .Ping) ∧
    (∀ raw : InteractionRaw, raw.kind = 2 → raw.data = none →
      interactionFromRaw raw = .error .payloadMissing) ∧
    (∀ (raw : InteractionRaw) (d : Json) (c : CommandInteractionData),
      raw.kind = 2 → raw.data = some d → decodeCID d = .ok c →
      interactionFromRaw raw = .ok (.Command c)) ∧
    (∀ (raw : InteractionRaw) (d : Json) (e : DecErr),
      raw.kind = 2 → raw.data = some d → decodeCID d = .error e →
      interactionFromRaw raw = .error (.payloadMalformed e)) ∧
    (∀ raw : InteractionRaw, raw.kind = 3 →
      interactionFromRaw raw = .ok .MessageComponent) ∧
    (∀ raw : InteractionRaw, raw.kind = 4 →
      interactionFromRaw raw = .ok .CommandAutocomplete) ∧
    (∀ raw : InteractionRaw, raw.kind = 5 →
      interactionFromRaw raw = .ok .ModalSumbit) ∧
    (∀ raw : InteractionRaw, raw.kind < 256 → raw.kind ∉ ([1, 2, 3, 4, 5] : List Nat) →
      interactionFromRaw raw = .error (.unknownVariant raw.kind)) ∧
    (∀ e : DecErr, EnvError.payloadMissing ≠ EnvError.payloadMalformed e) ∧
    (∀ j : Json, (∃ i, interactionDeserialize j = .ok i) ↔
      ¬ ∃ e, interactionDeserialize j = .error e) ∧
    interactionDeserialize (.obj [("type", .numU 1)]) = .ok .Ping ∧
    interactionDeserialize (.obj [("type", .numU 2)]) = .error .payloadMissing ∧
    interactionDeserialize (.obj [("type", .numU 2), ("data", .obj [])])
      = .error (.payloadMalformed (.missingField "name")) ∧
    interactionDeserialize (.obj [("type", .numU 6)]) = .error (.unknownVariant 6) := by
  refine ⟨?_, ?_, ?_, ?_, ?_, ?_, ?_, ?_, ?_, ?_, rfl, rfl, rfl, rfl⟩
  · rintro ⟨k, data⟩ h
    simp only at h
    subst h
    rfl
  · rintro ⟨k, data⟩ h hd
    simp only at h hd
    subst h
    subst hd
    rfl
  · rintro ⟨k, data⟩ d c h hd hdec
    simp only at h hd
    subst h
    subst hd
    simp only [interactionFromRaw]
    rw [hdec]
  · rintro ⟨k, data⟩ d e h hd hdec
    simp only at h hd
    subst h
    subst hd
    simp only [interactionFromRaw]
    rw [hdec]
  · rintro ⟨k, data⟩ h
    simp only at h
    subst h
    rfl
  · rintro ⟨k, data⟩ h
    simp only at h
    subst h
    rfl
  · rintro ⟨k, data⟩ h
    simp only at h
    subst h
    rfl
  · rintro ⟨k, data⟩ _ hmem
    simp only at hmem
    unfold interactionFromRaw
    split <;> simp_all
  · intro e h
    cases h
  · intro j
    cases h : interactionDeserialize j with
    | ok i => simp [h]
    | error e => simp [h]

/-- Witness for `interaction_envelope_dispatch`: discriminant 2 with no
payload fails with the missing-payload error, discriminant 6 fails with
the unknown-variant error carrying 6, and the missing-payload error
differs from a malformed-payload error. -/
theorem interaction_envelope_dispatch_witness :
    interactionFromRaw ⟨2, none⟩ = .error .payloadMissing ∧
    interactionFromRaw ⟨6, none⟩ = .error (.unknownVariant 6) ∧
    EnvError.payloadMissing ≠ EnvError.payloadMalformed (.missingField "name") :=
  ⟨interaction_envelope_dispatch.2.1 ⟨2, none⟩ rfl rfl,
   interaction_envelope_dispatch.2.2.2.2.2.2.2.1 ⟨6, none⟩ (by norm_num) (by decide),
   interaction_envelope_dispatch.2.2.2.2.2.2.2.2.1 (.missingField "name")⟩

